import Mathlib

set_option maxRecDepth 16384

/-!
Verification of gpt-cli-tool (main.go) against its specification.

The program is shallowly embedded: the JSON reply of the oracle becomes an
inductive `JVal`; `makeCommand` and `main`'s confirmation-and-dispatch tail
become pure functions producing a list of observable `Event`s (prints,
the single network POST, subprocess spawns, exit codes, runtime faults).
Go's loosely typed `map[string]interface\x7b\x7d` accesses are modelled by
`lookup`/`lookupD` plus `asObj`/`asArr`/`asStr`, where a failed Go type
assertion (`x.(T)` on a value that is not a `T`, nil included) is a runtime
fault, modelled by the `panicked` outcome.
-/

/-- JSON-like values, as produced by `json.Unmarshal` into
`map[string]interface\x7b\x7d`: objects are association lists (first binding
wins on lookup), numbers are modelled as integers (the only number the
program inspects, `usage.total_tokens`, is integral in every scenario). -/
inductive JVal where
  | jnull
  | jbool (b : Bool)
  | jnum (n : Int)
  | jstr (s : String)
  | jarr (xs : List JVal)
  | jobj (fs : List (String × JVal))

/-- A decoded JSON object: the type of Go's `map[string]interface\x7b\x7d`. -/
abbrev JObj := List (String × JVal)

/-- Go map indexing with presence bit: `v, ok := m[k]`. -/
def lookup (o : JObj) (k : String) : Option JVal :=
  (o.find? (fun p => p.1 = k)).map Prod.snd

/-- Go map indexing without presence bit: `m[k]` is the nil interface when
the key is absent. -/
def lookupD (o : JObj) (k : String) : JVal :=
  (lookup o k).getD .jnull

/-- Go type assertion `x.(map[string]interface\x7b\x7d)`: `none` means the
assertion fails and the program panics. -/
def JVal.asObj : JVal → Option JObj
  | .jobj fs => some fs
  | _ => none

/-- Go type assertion `x.([]interface\x7b\x7d)`. -/
def JVal.asArr : JVal → Option (List JVal)
  | .jarr xs => some xs
  | _ => none

/-- Go type assertion `x.(string)`. -/
def JVal.asStr : JVal → Option String
  | .jstr s => some s
  | _ => none

/-- Rendering of a JSON value under Go's `%s` verb, as used for the oracle
error's code and message: a string prints verbatim, the nil interface prints
`<nil>`; other shapes print a `%!s`-style diagnostic (only the string and
nil cases are exercised by the properties below). -/
def goFmtS : JVal → String
  | .jstr s => s
  | .jnull => "<nil>"
  | _ => "%!s"

/-- Rendering of `usage["total_tokens"]` under Go's `%.1f` verb: the reply's
numbers decode as float64, and an integral float64 n prints as `n.0`. -/
def goFmtF1 : JVal → String
  | .jnum n => toString n ++ ".0"
  | .jnull => "%!f(<nil>)"
  | _ => "%!f"

/-- Outcome of the response-extraction tail of `makeCommand`
(main.go lines 183-199). `panicked` is a Go runtime fault from a failed
type assertion or an out-of-range index — not a checked error path. -/
inductive ExtractOutcome where
  | oracleError (code message : JVal)
  | panicked
  | ok (content : String) (usage : JObj)

/-- The response extractor, translated from main.go lines 186-199:
only the `error` key's presence is tested (`if _, ok := result["error"]`);
every other field is reached through an unchecked type assertion
(`result["choices"].([]interface\x7b\x7d)` and so on) or an unchecked index
(`choices[0]`), each of which panics when the shape does not match. -/
def extractResult (result : JObj) : ExtractOutcome :=
  match lookup result "error" with
  | some ev =>
    match ev.asObj with
    | some errorDetails =>
        .oracleError (lookupD errorDetails "code") (lookupD errorDetails "message")
    | none => .panicked
  | none =>
    match (lookupD result "choices").asArr with
    | none => .panicked
    | some choices =>
      match choices.head? with
      | none => .panicked
      | some c0 =>
        match c0.asObj with
        | none => .panicked
        | some firstChoice =>
          match (lookupD firstChoice "message").asObj with
          | none => .panicked
          | some message =>
            match (lookupD message "content").asStr with
            | none => .panicked
            | some content =>
              match (lookupD result "usage").asObj with
              | none => .panicked
              | some usage => .ok content usage

/-- The remediation text `apiKeyInfo` (main.go line 58). -/
def apiKeyInfo : String :=
  "Goto https://platform.openai.com/account/api-keys to get your API key. Set the API key on CLI by \x27export OPENAI_API_KEY=key\x27 on Linux and MacOS or $Env:OPENAI_API_KEY = \x27key\x27 on Windows PowerShell\n\n"

/-- The fixed completions endpoint (main.go line 132). -/
def apiURL : String := "https://api.openai.com/v1/chat/completions"

/-- The prompt sent to the oracle (main.go lines 143-147): the fixed template
with the platform, the shell name and the verbatim pseudo-command spliced in. -/
def promptContent (plattform commandShell pseudoCommand : String) : String :=
  "Convert this pseudo command into a real command that can be run on " ++
    plattform ++ " and " ++ commandShell ++ " command shell. Note that the command might include misspelled, invalid or " ++
    "imagined arguments or even imagined program names. Try your best to convert it " ++
    "into an actual command that would do what the command seems to be intended to do.\n\n" ++
    pseudoCommand ++ "\n\nRespond only with the command."

/-- Observable effects of one invocation: terminal/log prints, the single
POST to the oracle (carrying model, message content and max_tokens),
subprocess spawns (program and argv), process exit, and a Go runtime fault. -/
inductive Event where
  | print (s : String)
  | netPost (model : String) (content : String) (maxTokens : Nat)
  | spawn (prog : String) (args : List String)
  | exited (code : Nat)
  | panicEv
deriving DecidableEq

/-- The post-request tail of `makeCommand` (main.go lines 169-199): a
transport failure prints the error and exits 1; otherwise the decoded reply
goes through `extractResult`. An oracle error prints its code and message
and exits 1; a shape mismatch is a runtime fault; success returns the
content string and the usage object. (The verbose `%#v` dumps of the decoded
result are elided from the event model.) -/
def makeNetTail (netReply : Except String JObj) : List Event × Option (String × JObj) :=
  match netReply with
  | .error e => ([.print ("Error: " ++ e ++ "\n"), .exited 1], none)
  | .ok result =>
    match extractResult result with
    | .oracleError code msg =>
        ([.print ("Error code " ++ goFmtS code ++ ": " ++ goFmtS msg), .exited 1], none)
    | .panicked => ([.panicEv], none)
    | .ok content usage => ([], some (content, usage))

/-- `makeCommand` (main.go lines 123-200) as an event trace plus result.
The API key is read from the environment (`os.Getenv` yields `""` when the
variable is absent); an empty key prints the configuration error with the
remediation text and exits 1 before any network activity. Otherwise, in
verbose mode the key, the URL and the platform are logged (the serialized
request dump is elided), the single POST is issued, and the reply is
extracted by `makeNetTail`. -/
def makeCommand (verbose : Bool) (model plattform commandShell pseudoCommand apiKey : String)
    (netReply : Except String JObj) : List Event × Option (String × JObj) :=
  if apiKey = "" then
    ([.print ("Error: OPENAI_API_KEY is not set. " ++ apiKeyInfo), .exited 1], none)
  else
    let dbg : String → List Event := fun s => if verbose then [.print s] else []
    let pre := dbg ("OPENAI_API_KEY: " ++ apiKey) ++ dbg ("API URL: " ++ apiURL) ++
      dbg ("plattform: " ++ plattform)
    let tail := makeNetTail netReply
    (pre ++ [.netPost model (promptContent plattform commandShell pseudoCommand) 1000] ++ tail.1,
     tail.2)

/-- Shell dispatch of a confirmed run (main.go lines 263-284): either a
spawn (program plus argv) or the unsupported-shell failure carrying the
shell name and the platform. -/
inductive DispatchResult where
  | spawnCmd (prog : String) (args : List String)
  | unsupported (shell : String) (goos : String)
deriving DecidableEq

/-- The nested switch on `runtime.GOOS` and the parent process name
(main.go lines 263-284): windows maps powershell.exe and cmd.exe; every
other platform maps zsh and bash; anything else is unsupported. -/
def dispatch (goos parentProcessName command : String) : DispatchResult :=
  if goos = "windows" then
    if parentProcessName = "powershell.exe" then .spawnCmd "powershell.exe" ["-c", command]
    else if parentProcessName = "cmd.exe" then .spawnCmd "cmd.exe" ["/C", command]
    else .unsupported parentProcessName goos
  else
    if parentProcessName = "zsh" then .spawnCmd "zsh" ["-c", command]
    else if parentProcessName = "bash" then .spawnCmd "bash" ["-c", command]
    else .unsupported parentProcessName goos

/-- The space characters of Go's `fmt` scanner that can occur inside one
input line (newline itself terminates the `Scanln`). -/
def goScanSpace (c : Char) : Bool :=
  c = ' ' || c = '\t' || c = '\x0b' || c = '\x0c' || c = '\r' || c = '\x85' || c = '\xa0'

/-- What `fmt.Scanln(&confirmation)` stores for a given input line: Go's
scanner skips leading space and reads one space-delimited token; the rest of
the line (which makes `Scanln` return an ignored error) is discarded. An
empty or all-space line leaves `confirmation` at its zero value `""`. -/
def scanToken (line : String) : String :=
  String.mk ((line.toList.dropWhile goScanSpace).takeWhile (fun c => !goScanSpace c))

/-- The confirmation-and-execution tail of `main` (main.go lines 256-294).
`line` is the line typed at the `Run? (y/n)` prompt; `child` is `none` when
the spawned command runs and exits 0, and `some e` when `cmd.Run` reports
error text `e` (start failure or non-zero exit). Only `confirmation == "y"`
enters the dispatch switch; any other token falls through to the end of
`main`, which exits 0. A child error is printed (`fmt.Println("Error: ", err)`)
and `main` still returns normally. -/
def gateEvents (goos parentProcessName command line : String) (child : Option String) :
    List Event :=
  let confirmation := scanToken line
  if confirmation = "y" then
    match dispatch goos parentProcessName command with
    | .spawnCmd prog args =>
        .spawn prog args ::
          ((match child with
            | some e => [Event.print ("Error:  " ++ e ++ "\n")]
            | none => []) ++ [.exited 0])
    | .unsupported shell g =>
        [.print ("Error: unsupported shell " ++ shell ++ " on " ++ g), .exited 1]
  else [.exited 0]

/-- The display block of `main` (main.go lines 252-257): lead-in line, the
usage line (`%.1f` of `usage["total_tokens"]`), the command itself
(`color.Cyan` prints it highlighted and newline-terminated; the ANSI color
codes are elided), and the confirmation prompt. -/
def displayEvents (command : String) (usage : JObj) : List Event :=
  [.print "Looks insanely complicated? Don\x27t panic. The answer is ...\n",
   .print ("number of tokens used (total_tokens): " ++ goFmtF1 (lookupD usage "total_tokens") ++ "\n"),
   .print (command ++ "\n"),
   .print "Run? (y/n) "]

/-- The pipeline from `makeCommand` through display and the execution gate
(main.go lines 251-294), given the already-built pseudo-command. When
`makeCommand` terminates the process (missing key, transport error, oracle
error) or faults, its trace is the whole trace. -/
def pipeline (verbose : Bool) (model goos parentProcessName pseudo apiKey : String)
    (netReply : Except String JObj) (line : String) (child : Option String) : List Event :=
  let mc := makeCommand verbose model goos parentProcessName pseudo apiKey netReply
  match mc.2 with
  | none => mc.1
  | some (command, usage) =>
      mc.1 ++ displayEvents command usage ++ gateEvents goos parentProcessName command line child

/-- Whether a trace launches a subprocess. -/
def spawned (evs : List Event) : Bool :=
  evs.any fun e => match e with | .spawn _ _ => true | _ => false

/-- Whether a trace issues the network POST. -/
def posted (evs : List Event) : Bool :=
  evs.any fun e => match e with | .netPost _ _ _ => true | _ => false

/-- `strings.Replace(s, old, new, 1)` on character lists: replace the first
occurrence of `pat` (an empty `pat` matches at the front, as in Go). -/
def replaceFirstAux (pat rep : List Char) : List Char → List Char
  | [] => []
  | c :: rest =>
    if pat.isPrefixOf (c :: rest) then rep ++ (c :: rest).drop pat.length
    else c :: replaceFirstAux pat rep rest

/-- `strings.Replace(s, pat, rep, 1)`. -/
def replaceFirst (s pat rep : String) : String :=
  String.mk (replaceFirstAux pat.toList rep.toList s.toList)

/-- The pseudo-command as `main` builds it (main.go lines 231-240): ALL of
`os.Args[1:]` joined with single spaces, then — when verbose — the first
occurrence of the substring `"-v"` removed, then the first occurrence of
`"-m " + model` removed. -/
def buildPseudo (args : List String) (verbose : Bool) (model : String) : String :=
  let pseudo := String.intercalate " " args
  let pseudo := if verbose then replaceFirst pseudo "-v" "" else pseudo
  replaceFirst pseudo ("-m " ++ model) ""

/-- Modelled from the spec: "the remaining positional (non-flag) arguments"
of the CLI surface (§6), i.e. what Go's flag package leaves in `flag.Args()`:
leading occurrences of the boolean flags `-v`/`-V` and of `-m` with its
value are consumed, `--` terminates flag parsing, and parsing stops at the
first non-flag argument. Spec-side definition, for comparison with
`buildPseudo`. -/
def positionalArgs : List String → List String
  | [] => []
  | a :: rest =>
    if a = "-v" || a = "-V" then positionalArgs rest
    else if a = "-m" then
      match rest with
      | [] => []
      | _ :: rest2 => positionalArgs rest2
    else if a = "--" then rest
    else a :: rest

/-- The shell context of the spec's §3: platform identifier and the name of
the shell process that invoked the tool. -/
structure ShellContext where
  platform : String
  shellName : String
deriving DecidableEq

/-- Outcome of resolving the shell context (main.go lines 226-228):
`nilDeref` is the Go runtime fault of calling `.Executable()` on the nil
`Process` that `ps.FindProcess` returns (alongside a discarded error) when
no process with the parent's pid is found. -/
inductive ResolveOutcome where
  | ok (ctx : ShellContext)
  | nilDeref
deriving DecidableEq

/-- The shell-context resolution of `main` (main.go lines 226-228): the
platform is `runtime.GOOS`; `findResult` is the executable name of the
parent process when `ps.FindProcess(os.Getppid())` finds one, and `none`
when it returns a nil process (its error return is discarded with `_`).
The nil process is dereferenced unconditionally. -/
def resolveShellContext (goos : String) (findResult : Option String) : ResolveOutcome :=
  match findResult with
  | some name => .ok ⟨goos, name⟩
  | none => .nilDeref

/-- C1 counterexample: the confirmation line "y n" is not the literal string
"y", yet the gate launches a subprocess: `fmt.Scanln` stores only the first
space-delimited token ("y") in `confirmation` and the comparison on line 262
succeeds, so the claim's quantification over whole input lines fails. -/
theorem gate_line_y_extra_spawns_cex :
    spawned (gateEvents "linux" "bash" "ls" "y n" none) = true ∧ "y n" ≠ "y" := by
  exact ⟨rfl, by decide⟩

/-- C1 (amended): the gate decides on the first space-delimited token of the
confirmation line (`fmt.Scanln` semantics). For every line whose first token
is not exactly "y" — including the empty line, "Y" and "yes" — the gate's
trace is exactly a clean exit 0 with no subprocess; and whenever a
subprocess is spawned, the line's first token was exactly "y". -/
theorem gate_token_allowlist (goos shell command line : String) (child : Option String) :
    (scanToken line ≠ "y" → gateEvents goos shell command line child = [Event.exited 0]) ∧
    (spawned (gateEvents goos shell command line child) = true → scanToken line = "y") := by
  constructor
  · intro h
    unfold gateEvents
    rw [if_neg h]
  · intro hsp
    by_cases h : scanToken line = "y"
    · exact h
    · exfalso
      unfold gateEvents at hsp
      rw [if_neg h] at hsp
      simp [spawned] at hsp

/-- Witness for the amended C1 at the line "yes": no subprocess, clean exit. -/
theorem gate_token_allowlist_witness :
    gateEvents "darwin" "zsh" "ls" "yes" none = [Event.exited 0] :=
  (gate_token_allowlist "darwin" "zsh" "ls" "yes" none).1 (by decide)

/-- The complement of the shell-mapping table of §4.4: the (platform, shell)
pairs that reach one of the two `default` branches of main.go lines 263-284. -/
def notInTable (goos shell : String) : Prop :=
  (goos = "windows" → shell ≠ "powershell.exe" ∧ shell ≠ "cmd.exe") ∧
  (goos ≠ "windows" → shell ≠ "zsh" ∧ shell ≠ "bash")

/-- C2: dispatch follows the table exactly — (windows, powershell.exe),
(windows, cmd.exe), (non-windows, zsh), (non-windows, bash) — and every pair
outside the table makes a confirmed run print the unsupported-shell error
naming the shell and the platform and exit 1 without spawning anything. -/
theorem dispatch_table_total (goos shell command : String) (child : Option String) :
    dispatch "windows" "powershell.exe" command = .spawnCmd "powershell.exe" ["-c", command] ∧
    dispatch "windows" "cmd.exe" command = .spawnCmd "cmd.exe" ["/C", command] ∧
    (goos ≠ "windows" → dispatch goos "zsh" command = .spawnCmd "zsh" ["-c", command]) ∧
    (goos ≠ "windows" → dispatch goos "bash" command = .spawnCmd "bash" ["-c", command]) ∧
    (notInTable goos shell →
      dispatch goos shell command = .unsupported shell goos ∧
      gateEvents goos shell command "y" child =
        [.print ("Error: unsupported shell " ++ shell ++ " on " ++ goos), .exited 1] ∧
      spawned (gateEvents goos shell command "y" child) = false) := by
  refine ⟨rfl, rfl, ?_, ?_, ?_⟩
  · intro h
    unfold dispatch
    rw [if_neg h, if_pos rfl]
  · intro h
    unfold dispatch
    rw [if_neg h, if_neg (by decide : ¬("bash" : String) = "zsh"), if_pos rfl]
  · intro h
    have hd : dispatch goos shell command = .unsupported shell goos := by
      unfold dispatch
      by_cases hw : goos = "windows"
      · obtain ⟨h1, h2⟩ := h.1 hw
        rw [if_pos hw, if_neg h1, if_neg h2]
      · obtain ⟨h1, h2⟩ := h.2 hw
        rw [if_neg hw, if_neg h1, if_neg h2]
    have hg : gateEvents goos shell command "y" child =
        [.print ("Error: unsupported shell " ++ shell ++ " on " ++ goos), .exited 1] := by
      unfold gateEvents
      rw [if_pos (by decide : scanToken "y" = "y"), hd]
    refine ⟨hd, hg, ?_⟩
    rw [hg]
    rfl

/-- Witness for C2 at the spec's end-to-end scenario 4: (linux, fish). -/
theorem dispatch_table_total_witness :
    dispatch "linux" "fish" "ls" = .unsupported "fish" "linux" ∧
    gateEvents "linux" "fish" "ls" "y" none =
      [.print ("Error: unsupported shell " ++ "fish" ++ " on " ++ "linux"), .exited 1] ∧
    spawned (gateEvents "linux" "fish" "ls" "y" none) = false :=
  (dispatch_table_total "linux" "fish" "ls" none).2.2.2.2 (by constructor <;> decide)

/-- C3 counterexample: on the empty reply object (the decode of a body with
none of the expected fields), the extractor does not fail with a checked
decode error — it faults: `result["choices"].([]interface\x7b\x7d)` is a
type assertion on a nil value, a runtime panic, so the whole invocation
ends in the fault event rather than a decode-error path. -/
theorem extract_missing_choices_faults_cex :
    extractResult [] = .panicked ∧ (makeNetTail (.ok [])).1 = [.panicEv] :=
  ⟨rfl, rfl⟩

/-- A successful Go type assertion `x.([]interface\x7b\x7d)` pins down the
value. -/
theorem JVal.asArr_eq {v : JVal} {xs : List JVal} (h : v.asArr = some xs) :
    v = .jarr xs := by
  cases v <;> simp [JVal.asArr] at h
  rw [h]

/-- A successful Go type assertion `x.(map[string]interface\x7b\x7d)` pins
down the value. -/
theorem JVal.asObj_eq {v : JVal} {o : JObj} (h : v.asObj = some o) :
    v = .jobj o := by
  cases v <;> simp [JVal.asObj] at h
  rw [h]

/-- A successful Go type assertion `x.(string)` pins down the value. -/
theorem JVal.asStr_eq {v : JVal} {t : String} (h : v.asStr = some t) :
    v = .jstr t := by
  cases v <;> simp [JVal.asStr] at h
  rw [h]

/-- A successful array assertion on an indexed map value implies the key is
present and holds that array (a nil interface never passes the assertion). -/
theorem lookupD_asArr {o : JObj} {k : String} {xs : List JVal}
    (h : (lookupD o k).asArr = some xs) : lookup o k = some (.jarr xs) := by
  unfold lookupD at h
  cases hl : lookup o k with
  | none => rw [hl] at h; simp [JVal.asArr] at h
  | some v => rw [hl] at h; simp at h; rw [JVal.asArr_eq h]

/-- A successful object assertion on an indexed map value implies the key is
present and holds that object. -/
theorem lookupD_asObj {o : JObj} {k : String} {m : JObj}
    (h : (lookupD o k).asObj = some m) : lookup o k = some (.jobj m) := by
  unfold lookupD at h
  cases hl : lookup o k with
  | none => rw [hl] at h; simp [JVal.asObj] at h
  | some v => rw [hl] at h; simp at h; rw [JVal.asObj_eq h]

/-- A successful string assertion on an indexed map value implies the key is
present and holds that string. -/
theorem lookupD_asStr {o : JObj} {k : String} {t : String}
    (h : (lookupD o k).asStr = some t) : lookup o k = some (.jstr t) := by
  unfold lookupD at h
  cases hl : lookup o k with
  | none => rw [hl] at h; simp [JVal.asStr] at h
  | some v => rw [hl] at h; simp at h; rw [JVal.asStr_eq h]

/-- The well-formed reply shape of the spec (§4.2/§4.3/§8), at given content
and usage: `choices` is an array whose first element is an object whose
`message` is an object with string `content`, and `usage` is an object. -/
def wellFormedAt (result : JObj) (content : String) (usage : JObj) : Prop :=
  ∃ choices c0 msgObj,
    lookup result "choices" = some (.jarr choices) ∧
    choices.head? = some (.jobj c0) ∧
    lookup c0 "message" = some (.jobj msgObj) ∧
    lookup msgObj "content" = some (.jstr content) ∧
    lookup result "usage" = some (.jobj usage)

/-- Normal form of the extractor when the reply has no error key: the chain
of assertion-guarded accesses of main.go lines 192-199. -/
theorem extract_err_none (result : JObj) (herr : lookup result "error" = none) :
    extractResult result =
      (match (lookupD result "choices").asArr with
      | none => .panicked
      | some choices =>
        match choices.head? with
        | none => .panicked
        | some c0 =>
          match c0.asObj with
          | none => .panicked
          | some firstChoice =>
            match (lookupD firstChoice "message").asObj with
            | none => .panicked
            | some message =>
              match (lookupD message "content").asStr with
              | none => .panicked
              | some content =>
                match (lookupD result "usage").asObj with
                | none => .panicked
                | some usage => .ok content usage) := by
  unfold extractResult
  rw [herr]

/-- Without an error object, the extractor can only fault or succeed: the
oracle-error outcome arises solely from the error branch. -/
theorem extract_of_error_none (result : JObj)
    (herr : lookup result "error" = none) :
    extractResult result = .panicked ∨ ∃ c u, extractResult result = .ok c u := by
  rw [extract_err_none result herr]
  repeat' split
  all_goals first
    | exact Or.inl rfl
    | exact Or.inr ⟨_, _, rfl⟩

/-- A successful extraction pins down the reply's shape: the yielded content
and usage are exactly the reply's `choices[0].message.content` and `usage`.
Every hidden default would contradict one of the match equations. -/
theorem extract_ok_shape (result : JObj) (content : String) (usage : JObj)
    (herr : lookup result "error" = none)
    (hok : extractResult result = .ok content usage) :
    wellFormedAt result content usage := by
  rw [extract_err_none result herr] at hok
  split at hok
  · exact absurd hok (by simp)
  · rename_i choices hchoices
    split at hok
    · exact absurd hok (by simp)
    · rename_i c0 hc0
      split at hok
      · exact absurd hok (by simp)
      · rename_i c0obj hc0obj
        split at hok
        · exact absurd hok (by simp)
        · rename_i msgObj hmsg
          split at hok
          · exact absurd hok (by simp)
          · rename_i cstr hcontent
            split at hok
            · exact absurd hok (by simp)
            · rename_i usage2 husage
              injection hok with hceq hueq
              subst hceq
              subst hueq
              exact ⟨choices, c0obj, msgObj, lookupD_asArr hchoices,
                (JVal.asObj_eq hc0obj) ▸ hc0,
                lookupD_asObj hmsg, lookupD_asStr hcontent, lookupD_asObj husage⟩

/-- C3 (amended): only the error key's presence is checked before access;
every other expected field is reached through an unchecked type assertion or
index. For a reply with no error object: extraction succeeds with content
`c` and usage object `u` exactly when the reply is well-formed and carries
exactly those — so a well-formed reply yields its own content string and
token count, never a silent default — and a reply that is not well-formed in
any way (absent or wrong-shaped `choices`, empty `choices` array, absent or
wrong-shaped `message`, `content` or `usage`) makes the extractor fault with
a runtime panic rather than fail with a checked decode error. -/
theorem extract_shape (result : JObj) (content : String) (usage : JObj) :
    (lookup result "error" = none →
      (extractResult result = .ok content usage ↔ wellFormedAt result content usage)) ∧
    (lookup result "error" = none → (∀ c u, ¬ wellFormedAt result c u) →
      extractResult result = .panicked) := by
  constructor
  · intro herr
    constructor
    · exact extract_ok_shape result content usage herr
    · rintro ⟨choices, c0, msgObj, h2, h3, h4, h5, h6⟩
      rw [extract_err_none result herr]
      simp [lookupD, h2, h3, h4, h5, h6, JVal.asArr, JVal.asObj, JVal.asStr]
  · intro herr hnwf
    rcases extract_of_error_none result herr with h | ⟨c, u, h⟩
    · exact h
    · exact absurd (extract_ok_shape result c u herr h) (hnwf c u)

/-- A well-formed oracle reply, used to witness the amended C3. -/
def wfReply : JObj :=
  [("choices", .jarr [.jobj [("message", .jobj [("content", .jstr "pwd")])]]),
   ("usage", .jobj [("total_tokens", .jnum 7)])]

/-- Witness for the amended C3: the well-formed reply yields exactly its own
content and usage, and a reply whose `choices` array is empty (well-formed
in no way) faults with the runtime panic. -/
theorem extract_shape_witness :
    extractResult wfReply = .ok "pwd" [("total_tokens", JVal.jnum 7)] ∧
    extractResult [("choices", JVal.jarr [])] = .panicked :=
  ⟨((extract_shape wfReply "pwd" [("total_tokens", JVal.jnum 7)]).1 rfl).2
      ⟨[.jobj [("message", .jobj [("content", .jstr "pwd")])]],
       [("message", .jobj [("content", .jstr "pwd")])], [("content", .jstr "pwd")],
       rfl, rfl, rfl, rfl, rfl⟩,
   (extract_shape [("choices", JVal.jarr [])] "" []).2 rfl (by
      rintro c u ⟨ch, c0, msgObj, h2, h3, h4, h5, h6⟩
      have hch : some (JVal.jarr []) = some (JVal.jarr ch) := by
        rw [← h2]; rfl
      injection Option.some.inj hch with hch2
      rw [← hch2] at h3
      simp at h3)⟩

/-- C4: when the credential environment variable is absent (`os.Getenv`
yields the empty string), `makeCommand`'s whole trace is the user-facing
configuration error followed by exit 1: no network POST occurs, no result is
produced, and the printed message carries the remediation text (the
api-keys URL). -/
theorem missing_api_key_no_network (verbose : Bool)
    (model plattform shell pseudo apiKey : String) (netReply : Except String JObj)
    (h : apiKey = "") :
    (makeCommand verbose model plattform shell pseudo apiKey netReply).1 =
      [.print ("Error: OPENAI_API_KEY is not set. " ++ apiKeyInfo), .exited 1] ∧
    posted (makeCommand verbose model plattform shell pseudo apiKey netReply).1 = false ∧
    (makeCommand verbose model plattform shell pseudo apiKey netReply).2 = none ∧
    "https://platform.openai.com/account/api-keys".toList <:+:
      ("Error: OPENAI_API_KEY is not set. " ++ apiKeyInfo).toList := by
  subst h
  refine ⟨rfl, rfl, rfl, ?_⟩
  decide

/-- Witness for C4 with the credential absent. -/
theorem missing_api_key_no_network_witness :
    (makeCommand false "gpt-3.5-turbo" "linux" "bash" "list files" "" (.error "no net")).1 =
      [.print ("Error: OPENAI_API_KEY is not set. " ++ apiKeyInfo), .exited 1] ∧
    posted (makeCommand false "gpt-3.5-turbo" "linux" "bash" "list files" "" (.error "no net")).1 = false ∧
    (makeCommand false "gpt-3.5-turbo" "linux" "bash" "list files" "" (.error "no net")).2 = none ∧
    "https://platform.openai.com/account/api-keys".toList <:+:
      ("Error: OPENAI_API_KEY is not set. " ++ apiKeyInfo).toList :=
  missing_api_key_no_network false "gpt-3.5-turbo" "linux" "bash" "list files" ""
    (.error "no net") rfl

/-- C5: for every reply containing an error object with string code and
message, the extractor yields the oracle error (never a translation
result), `makeCommand` returns no result, and the trace surfaces the code
and message verbatim (`Error code <code>: <message>`) followed by exit 1. -/
theorem oracle_error_terminal (verbose : Bool)
    (model plattform shell pseudo apiKey : String)
    (result errObj : JObj) (c m : String)
    (hk : apiKey ≠ "")
    (he : lookup result "error" = some (.jobj errObj))
    (hc : lookupD errObj "code" = .jstr c)
    (hm : lookupD errObj "message" = .jstr m) :
    extractResult result = .oracleError (.jstr c) (.jstr m) ∧
    (makeCommand verbose model plattform shell pseudo apiKey (.ok result)).2 = none ∧
    Event.print ("Error code " ++ c ++ ": " ++ m) ∈
      (makeCommand verbose model plattform shell pseudo apiKey (.ok result)).1 ∧
    Event.exited 1 ∈
      (makeCommand verbose model plattform shell pseudo apiKey (.ok result)).1 := by
  have hx : extractResult result = .oracleError (.jstr c) (.jstr m) := by
    unfold extractResult
    rw [he]
    simp [JVal.asObj, hc, hm]
  have ht : makeNetTail (.ok result) =
      ([.print ("Error code " ++ c ++ ": " ++ m), .exited 1], none) := by
    unfold makeNetTail
    simp [hx, goFmtS]
  refine ⟨hx, ?_, ?_, ?_⟩ <;>
    · unfold makeCommand
      rw [if_neg hk]
      simp [ht]

/-- Witness for C5 on a concrete error reply. -/
theorem oracle_error_terminal_witness :
    extractResult [("error", .jobj [("code", .jstr "429"), ("message", .jstr "rate limited")])] =
      .oracleError (.jstr "429") (.jstr "rate limited") ∧
    (makeCommand false "gpt-4" "darwin" "zsh" "ls" "sk-1"
      (.ok [("error", .jobj [("code", .jstr "429"), ("message", .jstr "rate limited")])])).2 = none ∧
    Event.print ("Error code " ++ "429" ++ ": " ++ "rate limited") ∈
      (makeCommand false "gpt-4" "darwin" "zsh" "ls" "sk-1"
        (.ok [("error", .jobj [("code", .jstr "429"), ("message", .jstr "rate limited")])])).1 ∧
    Event.exited 1 ∈
      (makeCommand false "gpt-4" "darwin" "zsh" "ls" "sk-1"
        (.ok [("error", .jobj [("code", .jstr "429"), ("message", .jstr "rate limited")])])).1 :=
  oracle_error_terminal false "gpt-4" "darwin" "zsh" "ls" "sk-1"
    [("error", .jobj [("code", .jstr "429"), ("message", .jstr "rate limited")])]
    [("code", .jstr "429"), ("message", .jstr "rate limited")]
    "429" "rate limited" (by decide) rfl rfl rfl

/-- C6 counterexample: for the invocation `gpt-cli-tool -v Find files`
(verbose on, default model), `main` builds the pseudo-command from ALL of
`os.Args[1:]` joined and substring-removes the first "-v", leaving a leading
space: the embedded text is " Find files", not the join "Find files" of the
positional arguments, so the prompt differs from the one the claim
prescribes. -/
theorem pseudo_not_positional_join_cex :
    buildPseudo ["-v", "Find", "files"] true "gpt-3.5-turbo" = " Find files" ∧
    String.intercalate " " (positionalArgs ["-v", "Find", "files"]) = "Find files" ∧
    promptContent "darwin" "zsh" (buildPseudo ["-v", "Find", "files"] true "gpt-3.5-turbo") ≠
      promptContent "darwin" "zsh"
        (String.intercalate " " (positionalArgs ["-v", "Find", "files"])) := by
  refine ⟨rfl, rfl, ?_⟩
  decide

/-- The fixed text of the prompt template before the embedded pseudo-command
(main.go lines 143-146). -/
def tmplPre (plattform commandShell : String) : String :=
  "Convert this pseudo command into a real command that can be run on " ++
    plattform ++ " and " ++ commandShell ++ " command shell. Note that the command might include misspelled, invalid or " ++
    "imagined arguments or even imagined program names. Try your best to convert it " ++
    "into an actual command that would do what the command seems to be intended to do.\n\n"

/-- The fixed text of the prompt template after the embedded pseudo-command
(main.go line 147). -/
def tmplSuf : String := "\n\nRespond only with the command."

/-- C6 (amended): the message content of the single POST is exactly the
fixed template — naming the platform and the shell, warning about
misspelled/invalid/imagined input, asking for only the command — with the
pseudo-command embedded verbatim between the fixed prefix and suffix; the
pseudo-command, however, is the space-join of ALL command-line arguments
with the first occurrence of the substring "-v" (when verbose) and of
"-m <model>" removed, which need not equal the join of the positional
(non-flag) arguments. -/
theorem prompt_fixed_template (verbose : Bool)
    (model goos shell apiKey : String) (args : List String)
    (netReply : Except String JObj) (hk : apiKey ≠ "") :
    promptContent goos shell (buildPseudo args verbose model) =
      tmplPre goos shell ++ buildPseudo args verbose model ++ tmplSuf ∧
    Event.netPost model (promptContent goos shell (buildPseudo args verbose model)) 1000 ∈
      (makeCommand verbose model goos shell (buildPseudo args verbose model) apiKey netReply).1 := by
  refine ⟨rfl, ?_⟩
  unfold makeCommand
  rw [if_neg hk]
  simp

/-- Witness for the amended C6 on a concrete verbose invocation. -/
theorem prompt_fixed_template_witness :
    promptContent "darwin" "zsh" (buildPseudo ["-v", "Find", "files"] true "gpt-3.5-turbo") =
      tmplPre "darwin" "zsh" ++ buildPseudo ["-v", "Find", "files"] true "gpt-3.5-turbo" ++ tmplSuf ∧
    Event.netPost "gpt-3.5-turbo"
        (promptContent "darwin" "zsh" (buildPseudo ["-v", "Find", "files"] true "gpt-3.5-turbo")) 1000 ∈
      (makeCommand true "gpt-3.5-turbo" "darwin" "zsh"
        (buildPseudo ["-v", "Find", "files"] true "gpt-3.5-turbo") "sk-2" (.error "down")).1 :=
  prompt_fixed_template true "gpt-3.5-turbo" "darwin" "zsh" "sk-2" ["-v", "Find", "files"]
    (.error "down") (by decide)

/-- C7: on a confirmed run whose dispatch succeeds, a failing child process
(start failure or non-zero exit, reported by `cmd.Run` as error text `e`)
only adds a printed diagnostic: the trace is the spawn, the printed
`Error:  <e>` line, and the tool's own clean exit 0 — never a non-zero exit
of the tool itself. -/
theorem child_failure_exits_zero (goos shell command e prog : String)
    (args : List String) (hd : dispatch goos shell command = .spawnCmd prog args) :
    gateEvents goos shell command "y" (some e) =
      [.spawn prog args, .print ("Error:  " ++ e ++ "\n"), .exited 0] := by
  unfold gateEvents
  rw [if_pos (by decide : scanToken "y" = "y"), hd]
  rfl

/-- Witness for C7: bash on linux, child reports `exit status 2`. -/
theorem child_failure_exits_zero_witness :
    gateEvents "linux" "bash" "ls" "y" (some "exit status 2") =
      [.spawn "bash" ["-c", "ls"], .print ("Error:  " ++ "exit status 2" ++ "\n"), .exited 0] :=
  child_failure_exits_zero "linux" "bash" "ls" "exit status 2" "bash" ["-c", "ls"] rfl

/-- The oracle reply of the spec's end-to-end scenario 1 (the shape of the
transcript in the repository README): content `find . -type f -size +42k`,
usage total_tokens 100. -/
def scenarioReply : JObj :=
  [("choices", .jarr [.jobj [("finish_reason", .jstr "stop"), ("index", .jnum 0),
      ("message", .jobj [("content", .jstr "find . -type f -size +42k"),
                         ("role", .jstr "assistant")])]]),
   ("created", .jnum 1699086690),
   ("usage", .jobj [("completion_tokens", .jnum 10), ("prompt_tokens", .jnum 90),
                    ("total_tokens", .jnum 100)])]

/-- The full trace of scenario 1: darwin/zsh, the scenario reply, the user
confirms with the line "y", the child runs cleanly. -/
def scenarioTrace : List Event :=
  pipeline false "gpt-4" "darwin" "zsh"
    "Find files larger than 42kB in the current directory" "sk-test" (.ok scenarioReply)
    "y" none

/-- C8: in scenario 1 the extractor yields exactly the reply's content and
usage; the displayed usage line shows 100 (rendered `100.0` by the `%.1f`
verb); the displayed command is the content string; and confirming with "y"
spawns zsh with argv `["-c", command]` — the command as one single argument,
and every spawn of the trace has exactly that argv. -/
theorem scenario_darwin_zsh :
    extractResult scenarioReply =
      .ok "find . -type f -size +42k"
        [("completion_tokens", .jnum 10), ("prompt_tokens", .jnum 90),
         ("total_tokens", .jnum 100)] ∧
    Event.print "number of tokens used (total_tokens): 100.0\n" ∈ scenarioTrace ∧
    "100".toList <:+: "number of tokens used (total_tokens): 100.0\n".toList ∧
    Event.print ("find . -type f -size +42k" ++ "\n") ∈ scenarioTrace ∧
    Event.spawn "zsh" ["-c", "find . -type f -size +42k"] ∈ scenarioTrace ∧
    (scenarioTrace.filter fun e =>
        match e with | .spawn _ _ => true | _ => false) =
      [Event.spawn "zsh" ["-c", "find . -type f -size +42k"]] :=
  ⟨rfl, by decide, by decide, by decide, by decide, by decide⟩

/-- C9 counterexample: when the parent-process lookup finds no process
(`ps.FindProcess` returns a nil process and a discarded error), the resolver
does not degrade to an empty shell name — `parentProcess.Executable()`
dereferences nil, a runtime fault, so no ShellContext (in particular not one
with an empty shell name) is produced. -/
theorem resolver_nil_lookup_faults_cex :
    resolveShellContext "linux" none = .nilDeref ∧
    resolveShellContext "linux" none ≠ .ok ⟨"linux", ""⟩ :=
  ⟨rfl, by decide⟩

/-- C9 (amended): the resolver discards the lookup error and, whenever the
parent-process lookup yields a process, returns its executable name together
with the platform without failing; but when the lookup yields no process it
faults with a nil dereference instead of yielding a best-effort (empty)
shell name. -/
theorem resolver_behavior (goos : String) (findResult : Option String) :
    (∀ name, findResult = some name →
      resolveShellContext goos findResult = .ok ⟨goos, name⟩) ∧
    (findResult = none → resolveShellContext goos findResult = .nilDeref) := by
  constructor
  · intro name h
    rw [h]
    rfl
  · intro h
    rw [h]
    rfl

/-- Witness for the amended C9: a found zsh parent resolves to (darwin, zsh). -/
theorem resolver_behavior_witness :
    resolveShellContext "darwin" (some "zsh") = .ok ⟨"darwin", "zsh"⟩ :=
  (resolver_behavior "darwin" (some "zsh")).1 "zsh" rfl

/-- In verbose mode with a non-empty key, the first logged line of
`makeCommand` carries the key verbatim. -/
theorem makeCommand_verbose_head (model plattform shell pseudo apiKey : String)
    (netReply : Except String JObj) (hk : apiKey ≠ "") :
    (makeCommand true model plattform shell pseudo apiKey netReply).1.head? =
      some (.print ("OPENAI_API_KEY: " ++ apiKey)) := by
  unfold makeCommand
  rw [if_neg hk]
  simp

/-- C10: with verbose mode on, the credential is written verbatim to the log
before the request is sent — the trace's first four events are the key line,
the URL line, the platform line, and only then the POST — and the
observable trace depends on the credential value: different keys give
different traces. -/
theorem verbose_logs_api_key (model plattform shell pseudo apiKey : String)
    (netReply : Except String JObj) (hk : apiKey ≠ "") :
    (makeCommand true model plattform shell pseudo apiKey netReply).1.take 4 =
      [.print ("OPENAI_API_KEY: " ++ apiKey),
       .print ("API URL: " ++ apiURL),
       .print ("plattform: " ++ plattform),
       .netPost model (promptContent plattform shell pseudo) 1000] ∧
    (∀ apiKey2, apiKey2 ≠ "" → apiKey2 ≠ apiKey →
      (makeCommand true model plattform shell pseudo apiKey2 netReply).1 ≠
        (makeCommand true model plattform shell pseudo apiKey netReply).1) := by
  constructor
  · unfold makeCommand
    rw [if_neg hk]
    simp
  · intro k2 hne hne2 heq
    apply hne2
    have h1 := makeCommand_verbose_head model plattform shell pseudo apiKey netReply hk
    have h2 := makeCommand_verbose_head model plattform shell pseudo k2 netReply hne
    rw [heq, h1] at h2
    have h3 : ("OPENAI_API_KEY: " ++ apiKey : String) = "OPENAI_API_KEY: " ++ k2 := by
      injection h2 with h4
      injection h4
    have h5 := congrArg String.data h3
    simp only [String.data_append] at h5
    exact (String.ext (List.append_cancel_left h5)).symm

/-- Witness for C10 at a concrete key: the leak line precedes the POST. -/
theorem verbose_logs_api_key_witness :
    (makeCommand true "gpt-4" "darwin" "zsh" "ls" "sk-secret" (.error "down")).1.take 4 =
      [.print ("OPENAI_API_KEY: " ++ "sk-secret"),
       .print ("API URL: " ++ apiURL),
       .print ("plattform: " ++ "darwin"),
       .netPost "gpt-4" (promptContent "darwin" "zsh" "ls") 1000] :=
  (verbose_logs_api_key "gpt-4" "darwin" "zsh" "ls" "sk-secret" (.error "down") (by decide)).1
